import Mathlib

/-!
A shallow embedding of the book-scanner repository (scanner.py, classes.py,
cleaner.py, tags.py) together with theorems settling the specification
claims about it.  Pure Python functions become Lean functions; the network
collaborators (Open Library, Google Books) are passed in as oracle
functions; Python exceptions are modelled with `Option` (`none` = an
uncaught exception escapes the function).
-/

set_option maxRecDepth 10000

namespace BookScanner

/-- One collaborator call made by the code, recorded in order. -/
inductive Call where
  | ol (isbn : String)
  | gb (isbn : String)
deriving DecidableEq, Repr

/-- Numeric value of an ASCII digit character. -/
def digitVal (c : Char) : Nat := c.toNat - 48

/-- Nonempty run of ASCII decimal digits. -/
def allDigits (cs : List Char) : Bool := !cs.isEmpty && cs.all Char.isDigit

/-- Value of a digit run, most significant first. -/
def natOfDigits (cs : List Char) : Nat := cs.foldl (fun a c => a * 10 + digitVal c) 0

/-- Strip leading and trailing ASCII whitespace. -/
def trimWs (cs : List Char) : List Char :=
  ((cs.dropWhile Char.isWhitespace).reverse.dropWhile Char.isWhitespace).reverse

/-- Python `int(s)` on a string: optional surrounding whitespace, an optional
sign, then one or more decimal digits; anything else raises `ValueError`
(modelled as `none`).  Underscore digit separators and non-ASCII digits,
which the claims never exercise, are not modelled. -/
def pyInt (s : String) : Option Int :=
  match trimWs s.data with
  | '+' :: ds => if allDigits ds then some (Int.ofNat (natOfDigits ds)) else none
  | '-' :: ds => if allDigits ds then some (-(Int.ofNat (natOfDigits ds))) else none
  | ds => if allDigits ds then some (Int.ofNat (natOfDigits ds)) else none

/-- A calendar date as produced by `datetime`; only the (year, month, day)
triple is ever observed by the repository. -/
structure DateV where
  year : Nat
  month : Nat
  day : Nat
deriving DecidableEq, Repr

/-- Injective monotone encoding of a parsed date (month ≤ 12 and day ≤ 31,
so this Nat compares exactly like the (year, month, day) tuple, i.e. like
Python `datetime` comparison). -/
def DateV.key (d : DateV) : Nat := d.year * 10000 + d.month * 100 + d.day

def isLeap (y : Nat) : Bool := y % 4 == 0 && (y % 100 != 0 || y % 400 == 0)

def daysInMonth (y m : Nat) : Nat :=
  if m == 2 then (if isLeap y then 29 else 28)
  else if m == 4 || m == 6 || m == 9 || m == 11 then 30
  else 31

/-- The checks `datetime(year, month, day)` performs before constructing. -/
def validYMD (y m d : Nat) : Bool :=
  1 ≤ y && y ≤ 9999 && 1 ≤ m && m ≤ 12 && 1 ≤ d && d ≤ daysInMonth y m

/-- Exactly `n` ASCII digits, accumulating their value; used for the
strptime `%Y` token (four digits). -/
def parseNDigits : Nat → Nat → List Char → Option (Nat × List Char)
  | 0, acc, cs => some (acc, cs)
  | Nat.succ n, acc, c :: cs =>
    if c.isDigit then parseNDigits n (acc * 10 + digitVal c) cs else none
  | Nat.succ _, _, [] => none

/-- Candidate matches for the strptime `%d` token, whose regular expression
alternatives are tried in the order 3[01], [12][0-9], 0[1-9], [1-9]. -/
def dayTokCandidates : List Char → List (Nat × List Char)
  | c1 :: c2 :: rest =>
    (if c1 == '3' && (c2 == '0' || c2 == '1') then [(30 + digitVal c2, rest)] else []) ++
    (if (c1 == '1' || c1 == '2') && c2.isDigit then [(digitVal c1 * 10 + digitVal c2, rest)] else []) ++
    (if c1 == '0' && ('1' ≤ c2 && c2 ≤ '9') then [(digitVal c2, rest)] else []) ++
    (if '1' ≤ c1 && c1 ≤ '9' then [(digitVal c1, c2 :: rest)] else [])
  | [c1] => if '1' ≤ c1 && c1 ≤ '9' then [(digitVal c1, [])] else []
  | [] => []

/-- Candidate matches for the strptime `%m` token, alternatives in the
order 1[0-2], 0[1-9], [1-9]. -/
def monthTokCandidates : List Char → List (Nat × List Char)
  | c1 :: c2 :: rest =>
    (if c1 == '1' && ('0' ≤ c2 && c2 ≤ '2') then [(10 + digitVal c2, rest)] else []) ++
    (if c1 == '0' && ('1' ≤ c2 && c2 ≤ '9') then [(digitVal c2, rest)] else []) ++
    (if '1' ≤ c1 && c1 ≤ '9' then [(digitVal c1, c2 :: rest)] else [])
  | [c1] => if '1' ≤ c1 && c1 ≤ '9' then [(digitVal c1, [])] else []
  | [] => []

/-- First candidate on which the continuation succeeds (regex backtracking
over the alternatives of a token). -/
def firstSome {α β : Type} (f : α → Option β) : List α → Option β
  | [] => none
  | a :: as =>
    match f a with
    | some b => some b
    | none => firstSome f as

/-- strptime `%b`: a case-insensitive three-letter English month
abbreviation. -/
def monthAbbrevNum (a b c : Char) : Option Nat :=
  match a.toLower, b.toLower, c.toLower with
  | 'j', 'a', 'n' => some 1
  | 'f', 'e', 'b' => some 2
  | 'm', 'a', 'r' => some 3
  | 'a', 'p', 'r' => some 4
  | 'm', 'a', 'y' => some 5
  | 'j', 'u', 'n' => some 6
  | 'j', 'u', 'l' => some 7
  | 'a', 'u', 'g' => some 8
  | 's', 'e', 'p' => some 9
  | 'o', 'c', 't' => some 10
  | 'n', 'o', 'v' => some 11
  | 'd', 'e', 'c' => some 12
  | _, _, _ => none

/-- A literal space in a strptime format string matches one or more
whitespace characters. -/
def skipWs1 : List Char → Option (List Char)
  | c :: cs => if c.isWhitespace then some (cs.dropWhile Char.isWhitespace) else none
  | [] => none

/-- `datetime.strptime(s, "%Y-%m-%d")`: four digits, a dash, a 1-2 digit
month, a dash, a 1-2 digit day, end of string; then the constructed date
must be a real calendar date, else `ValueError`. -/
def parseISO (cs : List Char) : Option DateV :=
  match parseNDigits 4 0 cs with
  | none => none
  | some (y, rest) =>
    match rest with
    | '-' :: r2 =>
      match firstSome (fun mc =>
        match mc.2 with
        | '-' :: r3 =>
          firstSome (fun dc => if dc.2.isEmpty then some (mc.1, dc.1) else none)
            (dayTokCandidates r3)
        | _ => none) (monthTokCandidates r2) with
      | some (m, d) => if validYMD y m d then some ⟨y, m, d⟩ else none
      | none => none
    | _ => none

/-- `datetime.strptime(s, "%b %d, %Y")`: month abbreviation, whitespace,
1-2 digit day, a comma, whitespace, four-digit year, end of string; then
the calendar-validity check. -/
def parseBdY (cs : List Char) : Option DateV :=
  match cs with
  | a :: b :: c :: rest =>
    match monthAbbrevNum a b c with
    | none => none
    | some m =>
      match skipWs1 rest with
      | none => none
      | some r2 =>
        match firstSome (fun dc =>
          match dc.2 with
          | ',' :: r3 =>
            match skipWs1 r3 with
            | none => none
            | some r4 =>
              match parseNDigits 4 0 r4 with
              | some (y, []) => some (dc.1, y)
              | _ => none
          | _ => none) (dayTokCandidates r2) with
        | some (d, y) => if validYMD y m d then some ⟨y, m, d⟩ else none
        | none => none
  | _ => none

/-- cleaner.py `is_valid_date`: true iff `datetime.strptime(s, "%Y-%m-%d")`
succeeds. -/
def is_valid_date (s : String) : Bool := (parseISO s.data).isSome

/-- Year clamping in the last fallback stage of classes.py
`Book.sortable_date`. -/
def clampYear (y : Int) : Nat :=
  if y < 1900 then 1900 else if y < 2000 then 2000 else y.toNat

/-- Fourth stage of classes.py `Book.sortable_date`: `int` of the first
four characters, clamped; if that also raises, the 1900-01-01 sentinel. -/
def yearFallback (pd : String) : DateV :=
  match pyInt (pd.take 4) with
  | some y => ⟨clampYear y, 1, 1⟩
  | none => ⟨1900, 1, 1⟩

namespace Classes

/-- classes.py `Book.sortable_date`: the four-stage parse cascade with the
1900-01-01 sentinel. -/
def sortable_date (pd : String) : DateV :=
  match parseBdY pd.data with
  | some d => d
  | none =>
    match parseISO pd.data with
    | some d => d
    | none =>
      match pyInt pd with
      | some y => if 1 ≤ y && y ≤ 9999 then ⟨y.toNat, 1, 1⟩ else yearFallback pd
      | none => yearFallback pd

end Classes

namespace Scanner

/-- scanner.py `Book.sortable_date`: month-name format, then a bare
four-digit year, then `datetime.min` (year 1). -/
def sortable_date (pd : String) : DateV :=
  match parseBdY pd.data with
  | some d => d
  | none =>
    match parseNDigits 4 0 pd.data with
    | some (y, []) => if 1 ≤ y then ⟨y, 1, 1⟩ else ⟨1, 1, 1⟩
    | _ => ⟨1, 1, 1⟩

end Scanner

/-- Python `", ".join(xs)`. -/
def joinComma (xs : List String) : String := String.intercalate ", " xs

/-- ASCII lower-casing of one character (A-Z map to a-z, everything else is
kept). -/
def asciiLower (c : Char) : Char :=
  if 65 ≤ c.toNat ∧ c.toNat ≤ 90 then Char.ofNat (c.toNat + 32) else c

/-- Python `str.lower()` restricted to ASCII, applied characterwise (every
string the repository compares is ASCII). -/
def pyLower (s : String) : List Char := s.data.map asciiLower

/-- Python string comparison: lexicographic by code point. -/
def strCmp : List Char → List Char → Ordering
  | [], [] => Ordering.eq
  | [], _ :: _ => Ordering.lt
  | _ :: _, [] => Ordering.gt
  | a :: as, b :: bs =>
    if a.toNat < b.toNat then Ordering.lt
    else if b.toNat < a.toNat then Ordering.gt
    else strCmp as bs

/-- Python `s.isdigit()` for ASCII strings: nonempty and all digits. -/
def pyIsDigit (s : String) : Bool := !s.data.isEmpty && s.data.all Char.isDigit

/-- First-match lookup in a JSON-object payload, `d.get(k, default)`. -/
def dictGet {α : Type} (default : α) (d : List (String × α)) (k : String) : α :=
  match d.find? (fun p => p.1 == k) with
  | some p => p.2
  | none => default

/-- `k in d` for a JSON-object payload. -/
def hasKey {α : Type} (d : List (String × α)) (k : String) : Bool :=
  d.any (fun p => p.1 == k)

theorem strCmp_self : ∀ x, strCmp x x = Ordering.eq := by
  intro x
  induction x with
  | nil => rfl
  | cons a as ih => simp [strCmp, ih]

theorem strCmp_swap : ∀ x y, strCmp y x = (strCmp x y).swap := by
  intro x
  induction x with
  | nil => intro y; cases y <;> rfl
  | cons a as ih =>
    intro y
    cases y with
    | nil => rfl
    | cons b bs =>
      simp only [strCmp]
      rcases Nat.lt_trichotomy a.toNat b.toNat with h | h | h
      · simp [h, Nat.lt_asymm h, Ordering.swap]
      · simp [h, Nat.lt_irrefl, ih]
      · simp [h, Nat.lt_asymm h, Ordering.swap]

theorem strCmp_eq_left : ∀ x y z, strCmp x y = Ordering.eq → strCmp x z = strCmp y z := by
  intro x
  induction x with
  | nil =>
    intro y z h
    cases y with
    | nil => rfl
    | cons b bs => simp [strCmp] at h
  | cons a as ih =>
    intro y z h
    cases y with
    | nil => simp [strCmp] at h
    | cons b bs =>
      simp only [strCmp] at h
      rcases Nat.lt_trichotomy a.toNat b.toNat with hab | hab | hab
      · simp [hab] at h
      · simp [hab, Nat.lt_irrefl] at h
        cases z with
        | nil => rfl
        | cons c cs =>
          simp only [strCmp]
          rw [hab, ih bs cs h]
      · simp [Nat.lt_asymm hab, hab] at h

theorem strCmp_lt_trans :
    ∀ x y z, strCmp x y = Ordering.lt → strCmp y z = Ordering.lt →
      strCmp x z = Ordering.lt := by
  intro x
  induction x with
  | nil =>
    intro y z hxy hyz
    cases y with
    | nil => simp [strCmp] at hxy
    | cons b bs =>
      cases z with
      | nil => simp [strCmp] at hyz
      | cons c cs => rfl
  | cons a as ih =>
    intro y z hxy hyz
    cases y with
    | nil => simp [strCmp] at hxy
    | cons b bs =>
      cases z with
      | nil => simp [strCmp] at hyz
      | cons c cs =>
        simp only [strCmp] at hxy hyz ⊢
        rcases Nat.lt_trichotomy a.toNat b.toNat with hab | hab | hab
        · rcases Nat.lt_trichotomy b.toNat c.toNat with hbc | hbc | hbc
          · have : a.toNat < c.toNat := Nat.lt_trans hab hbc
            simp [this]
          · have : a.toNat < c.toNat := hbc ▸ hab
            simp [this]
          · simp [hbc, Nat.lt_asymm hbc] at hyz
        · rcases Nat.lt_trichotomy b.toNat c.toNat with hbc | hbc | hbc
          · have : a.toNat < c.toNat := hab ▸ hbc
            simp [this]
          · have hac : a.toNat = c.toNat := hab.trans hbc
            simp [hab, Nat.lt_irrefl] at hxy
            simp [hbc, Nat.lt_irrefl] at hyz
            simp [hac, Nat.lt_irrefl]
            exact ih bs cs hxy hyz
          · simp [hbc, Nat.lt_asymm hbc] at hyz
        · simp [hab, Nat.lt_asymm hab] at hxy

theorem isDigit_toNat (c : Char) (h : c.isDigit = true) : 48 ≤ c.toNat ∧ c.toNat ≤ 57 := by
  unfold Char.isDigit at h
  rw [Bool.and_eq_true, decide_eq_true_eq, decide_eq_true_eq] at h
  obtain ⟨h1, h2⟩ := h
  exact ⟨UInt32.le_toNat_of_le (by decide) h1, UInt32.toNat_le_of_le (by decide) h2⟩

/-- An all-digit input can never be the quit command. -/
theorem pyIsDigit_ne_q (s : String) (h : pyIsDigit s = true) :
    (String.mk (pyLower s) == "q") = false := by
  rw [beq_eq_false_iff_ne]
  intro heq
  unfold pyIsDigit at h
  rw [Bool.and_eq_true] at h
  obtain ⟨-, hall⟩ := h
  have hd : pyLower s = ['q'] := congrArg String.data heq
  unfold pyLower at hd
  rcases hsd : s.data with - | ⟨c, rest⟩
  · rw [hsd] at hd
    simp at hd
  · rw [hsd] at hd
    simp only [List.map_cons] at hd
    injection hd with hc hrest
    have hcd : c.isDigit = true := by
      rw [List.all_eq_true] at hall
      exact hall c (hsd ▸ List.mem_cons_self c rest)
    have hbounds := isDigit_toNat c hcd
    unfold asciiLower at hc
    split_ifs at hc with hrange
    · omega
    · rw [hc] at hcd
      exact absurd hcd (by decide)

namespace Scanner

/-- scanner.py's `Book` dataclass (the scanner has no tags, description,
thumbnail, isbn10 or scanned_input fields). -/
structure Book where
  isbn13 : String
  title : String
  subtitle : String := ""
  author : String := ""
  publish_date : String := ""
  url : String := ""
deriving DecidableEq, Repr

/-- One author object of an Open Library payload, carrying a name. -/
structure OLAuthor where
  name : String
deriving DecidableEq, Repr

/-- The book object an Open Library payload stores under an `ISBN:` key;
only the fields scanner.py reads, each with its `.get` default. -/
structure OLBookData where
  title : String := ""
  subtitle : String := ""
  authors : List OLAuthor := []
  publish_date : String := ""
  url : String := ""
deriving DecidableEq, Repr

/-- The `volumeInfo` object of a Google Books volume, with the fields
scanner.py reads and their `.get` defaults. -/
structure GBVolumeInfo where
  title : String := ""
  subtitle : String := ""
  authors : List String := []
  publishedDate : String := ""
  infoLink : String := ""
deriving DecidableEq, Repr

/-- One Google Books volume (an element of `items`). -/
structure GBVolume where
  volumeInfo : GBVolumeInfo := {}
deriving DecidableEq, Repr

/-- A truthy (nonempty) Google Books response object; `items` is `none`
when the key is absent. -/
structure GBDict where
  items : Option (List GBVolume) := none

/-- The two collaborators of scanner.py, as fetch oracles.
`ol isbn = []` models a falsy response ({} or a failed request);
`gb isbn = none` likewise. -/
structure Oracle where
  ol : String → List (String × OLBookData)
  gb : String → Option GBDict

/-- scanner.py `Book.from_api`: looks the book object up under
`ISBN:<isbn>` (an absent key gives the empty object). -/
def Book.from_api (isbn : String) (data : List (String × OLBookData)) : Book :=
  let bd := dictGet {} data ("ISBN:" ++ isbn)
  { isbn13 := isbn
    title := bd.title
    subtitle := bd.subtitle
    author := joinComma (bd.authors.map OLAuthor.name)
    publish_date := bd.publish_date
    url := bd.url }

/-- scanner.py `Book.from_google_books` applied to one volume. -/
def Book.from_google_books (isbn : String) (v : GBVolume) : Book :=
  { isbn13 := isbn
    title := v.volumeInfo.title
    subtitle := v.volumeInfo.subtitle
    author := joinComma v.volumeInfo.authors
    publish_date := v.volumeInfo.publishedDate
    url := v.volumeInfo.infoLink }

/-- Python `int(c)` on a one-character string: the digit value, or
`ValueError` (`none`) on a non-digit. -/
def pyIntChar (c : Char) : Option Nat :=
  if c.isDigit then some (digitVal c) else none

/-- The weighted-sum loop of `isbn13_to_isbn10`:
`total += int(digit) * (10 - i)`; `none` when `int` raises. -/
def sumWeights : List Char → Nat → Nat → Option Nat
  | [], _, acc => some acc
  | c :: cs, i, acc =>
    match pyIntChar c with
    | none => none
    | some d => sumWeights cs (i + 1) (acc + d * (10 - i))

/-- Python `s.startswith(p)`, on the character lists. -/
def listStarts : List Char → List Char → Bool
  | [], _ => true
  | _ :: _, [] => false
  | p :: ps, c :: cs => p == c && listStarts ps cs

/-- scanner.py `isbn13_to_isbn10`.  The core slice `isbn13[3:-1]` is taken
on the character list; `none` models the uncaught `ValueError` raised by
`int(digit)` on a non-digit core character. -/
def isbn13_to_isbn10 (isbn13 : String) : Option String :=
  if !listStarts "978".data isbn13.data || isbn13.length != 13 then some ""
  else
    let core := (isbn13.data.drop 3).dropLast
    match sumWeights core 0 0 with
    | none => none
    | some total =>
      let check := 11 - total % 11
      let checkChar := if check == 10 then "X" else if check == 11 then "0" else toString check
      some (String.mk core ++ checkChar)

/-- The sort key comparison of `save_books`:
`(b.author.lower(), b.sortable_date())` tuples compared as Python does. -/
def keyLe (a b : Book) : Bool :=
  match strCmp (pyLower a.author) (pyLower b.author) with
  | Ordering.lt => true
  | Ordering.gt => false
  | Ordering.eq => decide ((sortable_date a.publish_date).key ≤ (sortable_date b.publish_date).key)

instance decKeyRel : DecidableRel (fun a b : Book => keyLe a b = true) :=
  fun a b => inferInstanceAs (Decidable (keyLe a b = true))

instance totalKeyRel : IsTotal Book (fun a b : Book => keyLe a b = true) := by
  constructor
  intro a b
  unfold keyLe
  rcases h : strCmp (pyLower a.author) (pyLower b.author) with _ | _ | _
  · simp [h]
  · have h2 : strCmp (pyLower b.author) (pyLower a.author) = Ordering.eq := by
      rw [strCmp_swap, h]; rfl
    simp [h, h2]
    exact Nat.le_total _ _
  · have h2 : strCmp (pyLower b.author) (pyLower a.author) = Ordering.lt := by
      rw [strCmp_swap, h]; rfl
    simp [h2]

instance transKeyRel : IsTrans Book (fun a b : Book => keyLe a b = true) := by
  constructor
  intro a b c hab hbc
  unfold keyLe at hab hbc ⊢
  rcases h1 : strCmp (pyLower a.author) (pyLower b.author) with _ | _ | _ <;>
    simp [h1] at hab <;>
    rcases h2 : strCmp (pyLower b.author) (pyLower c.author) with _ | _ | _ <;>
      simp [h2] at hbc
  -- a < b, b < c
  · have h3 : strCmp (pyLower a.author) (pyLower c.author) = Ordering.lt :=
      strCmp_lt_trans _ _ _ h1 h2
    simp [h3]
  -- a < b, b = c
  · have hswap : strCmp (pyLower c.author) (pyLower b.author) = Ordering.eq := by
      rw [strCmp_swap, h2]; rfl
    have hca : strCmp (pyLower c.author) (pyLower a.author)
        = strCmp (pyLower b.author) (pyLower a.author) := strCmp_eq_left _ _ _ hswap
    have hba : strCmp (pyLower b.author) (pyLower a.author) = Ordering.gt := by
      rw [strCmp_swap, h1]; rfl
    have h3 : strCmp (pyLower a.author) (pyLower c.author) = Ordering.lt := by
      rw [strCmp_swap (pyLower c.author) (pyLower a.author), hca, hba]
      rfl
    simp [h3]
  -- a = b, b < c
  · have h3 : strCmp (pyLower a.author) (pyLower c.author) = Ordering.lt := by
      rw [strCmp_eq_left _ _ _ h1, h2]
    simp [h3]
  -- a = b, b = c
  · have h3 : strCmp (pyLower a.author) (pyLower c.author) = Ordering.eq := by
      rw [strCmp_eq_left _ _ _ h1, h2]
    simp [h3]
    exact Nat.le_trans hab hbc

/-- The row order `save_books` persists: Python's stable sort with key
`(author.lower(), sortable_date())`, modelled by insertion sort over the
same total preorder. -/
def save_books (books : List Book) : List Book :=
  List.insertionSort (fun a b : Book => keyLe a b = true) books

/-- `books[isbn] = book` on the catalog dict: replace the entry if the key
exists, else append (dicts keep insertion order). -/
def upsert (books : List (String × Book)) (k : String) (v : Book) : List (String × Book) :=
  if hasKey books k then books.map (fun p => if p.1 == k then (k, v) else p)
  else books ++ [(k, v)]

/-- What one iteration of the `main` loop did, as observable from the
catalog and the collaborators. -/
inductive Outcome where
  | quit
  | invalidIsbn
  | alreadyExists
  | addedOL13
  | addedOL10
  | addedGB13
  | addedGB10
  | notFound
  | titleSearch
  | ignored
deriving DecidableEq, Repr

/-- The observable result of one iteration of `main`: the catalog
afterwards, the collaborator calls made (in order), whether `save_books`
ran, and which branch was taken. -/
structure StepResult where
  books : List (String × Book)
  fetches : List Call
  saved : Bool
  outcome : Outcome
deriving DecidableEq, Repr

/-- The Google Books ISBN-10 fallback of `main` (the last stage of the
fallback chain).  `none` models the `IndexError` from `data["items"][0]`
on a payload whose items list is empty. -/
def gb10Stage (o : Oracle) (books : List (String × Book)) (input isbn10 : String)
    (log : List Call) : Option StepResult :=
  if isbn10 != "" then
    let log4 := log ++ [Call.gb isbn10]
    match o.gb isbn10 with
    | some dict =>
      match dict.items with
      | some [] => none
      | some (v :: _) =>
        some ⟨upsert books input (Book.from_google_books input v), log4, true, Outcome.addedGB10⟩
      | none => some ⟨books, log4, false, Outcome.notFound⟩
    | none => some ⟨books, log4, false, Outcome.notFound⟩
  else some ⟨books, log, false, Outcome.notFound⟩

/-- The Google Books ISBN-13 stage of `main`, falling back to
`gb10Stage`. -/
def gbStage (o : Oracle) (books : List (String × Book)) (input isbn10 : String)
    (log : List Call) : Option StepResult :=
  let log3 := log ++ [Call.gb input]
  match o.gb input with
  | some dict =>
    match dict.items with
    | some [] => none
    | some (v :: _) =>
      some ⟨upsert books input (Book.from_google_books input v), log3, true, Outcome.addedGB13⟩
    | none => gb10Stage o books input isbn10 log3
  | none => gb10Stage o books input isbn10 log3

/-- One iteration of scanner.py `main`'s input loop on an (already
stripped) user input.  The title-search branch reads further inputs and
searches the in-memory catalog but provably performs no fetch, no catalog
mutation and no save, so it is summarised by its `Outcome`.  `none` models
an uncaught exception. -/
def mainStep (o : Oracle) (books : List (String × Book)) (input : String) :
    Option StepResult :=
  if String.mk (pyLower input) == "q" then some ⟨books, [], false, Outcome.quit⟩
  else if pyIsDigit input then
    if input.length != 13 then some ⟨books, [], false, Outcome.invalidIsbn⟩
    else if hasKey books input then some ⟨books, [], false, Outcome.alreadyExists⟩
    else
      match isbn13_to_isbn10 input with
      | none => none
      | some isbn10 =>
        let d1 := o.ol input
        if !d1.isEmpty && hasKey d1 ("ISBN:" ++ input) then
          some ⟨upsert books input (Book.from_api input d1), [Call.ol input], true,
            Outcome.addedOL13⟩
        else if isbn10 != "" then
          let d2 := o.ol isbn10
          if !d2.isEmpty && hasKey d2 ("ISBN:" ++ isbn10) then
            some ⟨upsert books input (Book.from_api input d2),
              [Call.ol input, Call.ol isbn10], true, Outcome.addedOL10⟩
          else gbStage o books input isbn10 [Call.ol input, Call.ol isbn10]
        else gbStage o books input isbn10 [Call.ol input]
  else if input.data.any Char.isAlpha then some ⟨books, [], false, Outcome.titleSearch⟩
  else some ⟨books, [], false, Outcome.ignored⟩

end Scanner

namespace Classes

/-- classes.py's `Book` dataclass (the canonical record of the enrichment
pass). -/
structure Book where
  isbn13 : String
  isbn10 : String
  title : String
  subtitle : String := ""
  author : String := ""
  publish_date : String := ""
  url : String := ""
  scanned_input : String := ""
  tags : String := ""
  description : String := ""
  thumbnail : String := ""
deriving DecidableEq, Repr

/-- One subject object of an Open Library payload; `name` is `none` when
the `"name"` key is absent (cleaner.py filters on `"name" in subj`). -/
structure OLSubject where
  name : Option String
deriving DecidableEq, Repr

/-- The part of an Open Library book object cleaner.py reads: its subject
list (`.get("subjects", [])`). -/
structure OLEntry where
  subjects : List OLSubject := []
deriving DecidableEq, Repr

/-- The `volumeInfo` fields cleaner.py reads, each with its chained `.get`
default (`thumbnail` stands for `imageLinks.thumbnail`). -/
structure VolumeInfo where
  categories : List String := []
  publishedDate : String := ""
  description : String := ""
  thumbnail : String := ""
deriving DecidableEq, Repr

/-- A truthy result of `fetch_google_books_data` (googlebooks.py returns
the first item of the response, or an empty falsy dict). -/
structure GBItem where
  volumeInfo : VolumeInfo := {}
deriving DecidableEq, Repr

/-- The two collaborators of cleaner.py/tags.py as fetch oracles.
`ol isbn = []` and `gb isbn = none` model falsy results. -/
structure Oracle where
  ol : String → List (String × OLEntry)
  gb : String → Option GBItem

/-- `fetch_open_library_data(book.isbn13) or fetch_open_library_data(book.isbn10)`
with the calls it makes: the second fetch happens only when the first
result is falsy. -/
def fetch_ol_chain (o : Oracle) (b : Book) : List (String × OLEntry) × List Call :=
  let d1 := o.ol b.isbn13
  if d1.isEmpty then (o.ol b.isbn10, [Call.ol b.isbn13, Call.ol b.isbn10])
  else (d1, [Call.ol b.isbn13])

/-- `fetch_google_books_data(book.isbn13) or fetch_google_books_data(book.isbn10)`
with its calls. -/
def fetch_gb_chain (o : Oracle) (b : Book) : Option GBItem × List Call :=
  match o.gb b.isbn13 with
  | some g => (some g, [Call.gb b.isbn13])
  | none => (o.gb b.isbn10, [Call.gb b.isbn13, Call.gb b.isbn10])

/-- The tag string cleaner.py builds from an Open Library payload: subjects
of the entry keyed `ISBN:{book.isbn13 or book.isbn10}`, names joined. -/
def olTagStr (data : List (String × OLEntry)) (isbn13 isbn10 : String) : String :=
  let key := "ISBN:" ++ (if isbn13 == "" then isbn10 else isbn13)
  joinComma (((dictGet {} data key).subjects).filterMap OLSubject.name)

/-- Step: `Try to update tags from Open Library first`. -/
def apply_tags_ol (data : List (String × OLEntry)) (b : Book) : Book :=
  if b.tags == "" && !data.isEmpty then
    if olTagStr data b.isbn13 b.isbn10 == "" then b
    else { b with tags := olTagStr data b.isbn13 b.isbn10 }
  else b

/-- Step: `Fallback: get tags from Google Books if Open Library failed`. -/
def apply_tags_gb (g : Option GBItem) (b : Book) : Book :=
  match g with
  | none => b
  | some item =>
    if b.tags == "" then
      if item.volumeInfo.categories.isEmpty then b
      else { b with tags := joinComma item.volumeInfo.categories }
    else b

/-- Step: `Fix publish date if it's invalid using Google Books`. -/
def apply_date (g : Option GBItem) (b : Book) : Book :=
  match g with
  | none => b
  | some item =>
    if !is_valid_date b.publish_date then
      if is_valid_date item.volumeInfo.publishedDate then
        { b with publish_date := item.volumeInfo.publishedDate }
      else b
    else b

/-- Step: `Add description from Google Books if missing`. -/
def apply_description (g : Option GBItem) (b : Book) : Book :=
  match g with
  | none => b
  | some item =>
    if b.description == "" then
      if item.volumeInfo.description == "" then b
      else { b with description := item.volumeInfo.description }
    else b

/-- Step: `Add thumbnail from Google Books if missing`. -/
def apply_thumbnail (g : Option GBItem) (b : Book) : Book :=
  match g with
  | none => b
  | some item =>
    if b.thumbnail == "" then
      if item.volumeInfo.thumbnail == "" then b
      else { b with thumbnail := item.volumeInfo.thumbnail }
    else b

/-- cleaner.py `update_book_info`: fetch only the needed sources, then the
five field-update steps in code order; also returns the collaborator calls
made, in order. -/
def update_book_info (o : Oracle) (b : Book) : Book × List Call :=
  let needsOL := b.tags == ""
  let needsG := !is_valid_date b.publish_date || b.description == ""
  let olp := if needsOL then fetch_ol_chain o b else ([], [])
  let gp := if needsG then fetch_gb_chain o b else (none, [])
  (apply_thumbnail gp.1 (apply_description gp.1 (apply_date gp.1
    (apply_tags_gb gp.1 (apply_tags_ol olp.1 b)))), olp.2 ++ gp.2)

/-- tags.py `update_book_tags`: skip when tags exist; otherwise fetch the
Open Library chain and, when truthy, read subjects of the entry keyed
`ISBN:{book.isbn13}` (always the ISBN-13, even when empty). -/
def update_book_tags (o : Oracle) (b : Book) : Book :=
  if b.tags != "" then b
  else
    let data := (fetch_ol_chain o b).1
    if data.isEmpty then b
    else
      let info := dictGet {} data ("ISBN:" ++ b.isbn13)
      let subs := info.subjects
      if subs.isEmpty then b
      else
        let tagString := joinComma (subs.filterMap OLSubject.name)
        if tagString == "" then b else { b with tags := tagString }

end Classes

namespace Classes

/-- What the Open Library side of `update_book_info` fetched: the chain
result when tags are missing, nothing otherwise. -/
def olFetched (o : Oracle) (b : Book) : List (String × OLEntry) :=
  if b.tags == "" then (fetch_ol_chain o b).1 else []

/-- What the Google Books side of `update_book_info` fetched. -/
def gbFetched (o : Oracle) (b : Book) : Option GBItem :=
  if !is_valid_date b.publish_date || b.description == "" then (fetch_gb_chain o b).1 else none

/-- The collaborator calls `update_book_info` makes, in order. -/
def callsOf (o : Oracle) (b : Book) : List Call :=
  (if b.tags == "" then (fetch_ol_chain o b).2 else []) ++
  (if !is_valid_date b.publish_date || b.description == "" then (fetch_gb_chain o b).2 else [])

/-- The five update steps of `update_book_info` in code order, abstracted
over the fetched payloads. -/
def pipe (d : List (String × OLEntry)) (g : Option GBItem) (b : Book) : Book :=
  apply_thumbnail g (apply_description g (apply_date g (apply_tags_gb g (apply_tags_ol d b))))

theorem update_book_info_eq (o : Oracle) (b : Book) :
    update_book_info o b = (pipe (olFetched o b) (gbFetched o b) b, callsOf o b) := by
  unfold update_book_info olFetched gbFetched callsOf pipe
  by_cases h1 : (b.tags == "") = true <;>
    by_cases h2 : (!is_valid_date b.publish_date || b.description == "") = true <;>
      simp [h1, h2]

/-- Value of the tags field after the Open Library tag step. -/
def tagsOlVal (d : List (String × OLEntry)) (b : Book) : String :=
  if b.tags == "" && !d.isEmpty then
    (if olTagStr d b.isbn13 b.isbn10 == "" then b.tags else olTagStr d b.isbn13 b.isbn10)
  else b.tags

/-- Value of the tags field after the Google Books fallback step. -/
def tagsGbVal (g : Option GBItem) (t : String) : String :=
  match g with
  | none => t
  | some item =>
    if t == "" then
      (if item.volumeInfo.categories.isEmpty then t else joinComma item.volumeInfo.categories)
    else t

/-- Value of publish_date after the date-repair step. -/
def pdVal (g : Option GBItem) (p : String) : String :=
  match g with
  | none => p
  | some item =>
    if !is_valid_date p then
      (if is_valid_date item.volumeInfo.publishedDate then item.volumeInfo.publishedDate else p)
    else p

/-- Value of description after the description step. -/
def descVal (g : Option GBItem) (s : String) : String :=
  match g with
  | none => s
  | some item =>
    if s == "" then
      (if item.volumeInfo.description == "" then s else item.volumeInfo.description)
    else s

/-- Value of thumbnail after the thumbnail step. -/
def thumbVal (g : Option GBItem) (t : String) : String :=
  match g with
  | none => t
  | some item =>
    if t == "" then
      (if item.volumeInfo.thumbnail == "" then t else item.volumeInfo.thumbnail)
    else t

theorem tags_apply_tags_ol (d : List (String × OLEntry)) (x : Book) :
    (apply_tags_ol d x).tags = tagsOlVal d x := by
  unfold apply_tags_ol tagsOlVal; split_ifs <;> rfl

theorem tags_apply_tags_gb (g : Option GBItem) (x : Book) :
    (apply_tags_gb g x).tags = tagsGbVal g x.tags := by
  unfold apply_tags_gb tagsGbVal
  cases g <;> dsimp only [] <;> first | rfl | (split_ifs <;> rfl)

theorem pd_apply_date (g : Option GBItem) (x : Book) :
    (apply_date g x).publish_date = pdVal g x.publish_date := by
  unfold apply_date pdVal
  cases g <;> dsimp only [] <;> first | rfl | (split_ifs <;> rfl)

theorem desc_apply_description (g : Option GBItem) (x : Book) :
    (apply_description g x).description = descVal g x.description := by
  unfold apply_description descVal
  cases g <;> dsimp only [] <;> first | rfl | (split_ifs <;> rfl)

theorem thumb_apply_thumbnail (g : Option GBItem) (x : Book) :
    (apply_thumbnail g x).thumbnail = thumbVal g x.thumbnail := by
  unfold apply_thumbnail thumbVal
  cases g <;> dsimp only [] <;> first | rfl | (split_ifs <;> rfl)

theorem tags_apply_date (g : Option GBItem) (x : Book) : (apply_date g x).tags = x.tags := by
  unfold apply_date; cases g <;> dsimp only [] <;> first | rfl | (split_ifs <;> rfl)

theorem tags_apply_description (g : Option GBItem) (x : Book) :
    (apply_description g x).tags = x.tags := by
  unfold apply_description; cases g <;> dsimp only [] <;> first | rfl | (split_ifs <;> rfl)

theorem tags_apply_thumbnail (g : Option GBItem) (x : Book) :
    (apply_thumbnail g x).tags = x.tags := by
  unfold apply_thumbnail; cases g <;> dsimp only [] <;> first | rfl | (split_ifs <;> rfl)

theorem pd_apply_tags_ol (d : List (String × OLEntry)) (x : Book) :
    (apply_tags_ol d x).publish_date = x.publish_date := by
  unfold apply_tags_ol; split_ifs <;> rfl

theorem pd_apply_tags_gb (g : Option GBItem) (x : Book) :
    (apply_tags_gb g x).publish_date = x.publish_date := by
  unfold apply_tags_gb; cases g <;> dsimp only [] <;> first | rfl | (split_ifs <;> rfl)

theorem pd_apply_description (g : Option GBItem) (x : Book) :
    (apply_description g x).publish_date = x.publish_date := by
  unfold apply_description; cases g <;> dsimp only [] <;> first | rfl | (split_ifs <;> rfl)

theorem pd_apply_thumbnail (g : Option GBItem) (x : Book) :
    (apply_thumbnail g x).publish_date = x.publish_date := by
  unfold apply_thumbnail; cases g <;> dsimp only [] <;> first | rfl | (split_ifs <;> rfl)

theorem desc_apply_tags_ol (d : List (String × OLEntry)) (x : Book) :
    (apply_tags_ol d x).description = x.description := by
  unfold apply_tags_ol; split_ifs <;> rfl

theorem desc_apply_tags_gb (g : Option GBItem) (x : Book) :
    (apply_tags_gb g x).description = x.description := by
  unfold apply_tags_gb; cases g <;> dsimp only [] <;> first | rfl | (split_ifs <;> rfl)

theorem desc_apply_date (g : Option GBItem) (x : Book) :
    (apply_date g x).description = x.description := by
  unfold apply_date; cases g <;> dsimp only [] <;> first | rfl | (split_ifs <;> rfl)

theorem desc_apply_thumbnail (g : Option GBItem) (x : Book) :
    (apply_thumbnail g x).description = x.description := by
  unfold apply_thumbnail; cases g <;> dsimp only [] <;> first | rfl | (split_ifs <;> rfl)

theorem thumb_apply_tags_ol (d : List (String × OLEntry)) (x : Book) :
    (apply_tags_ol d x).thumbnail = x.thumbnail := by
  unfold apply_tags_ol; split_ifs <;> rfl

theorem thumb_apply_tags_gb (g : Option GBItem) (x : Book) :
    (apply_tags_gb g x).thumbnail = x.thumbnail := by
  unfold apply_tags_gb; cases g <;> dsimp only [] <;> first | rfl | (split_ifs <;> rfl)

theorem thumb_apply_date (g : Option GBItem) (x : Book) :
    (apply_date g x).thumbnail = x.thumbnail := by
  unfold apply_date; cases g <;> dsimp only [] <;> first | rfl | (split_ifs <;> rfl)

theorem thumb_apply_description (g : Option GBItem) (x : Book) :
    (apply_description g x).thumbnail = x.thumbnail := by
  unfold apply_description; cases g <;> dsimp only [] <;> first | rfl | (split_ifs <;> rfl)

theorem isbn13_apply_tags_ol (d : List (String × OLEntry)) (x : Book) :
    (apply_tags_ol d x).isbn13 = x.isbn13 := by
  unfold apply_tags_ol; split_ifs <;> rfl

theorem isbn13_apply_tags_gb (g : Option GBItem) (x : Book) :
    (apply_tags_gb g x).isbn13 = x.isbn13 := by
  unfold apply_tags_gb; cases g <;> dsimp only [] <;> first | rfl | (split_ifs <;> rfl)

theorem isbn13_apply_date (g : Option GBItem) (x : Book) :
    (apply_date g x).isbn13 = x.isbn13 := by
  unfold apply_date; cases g <;> dsimp only [] <;> first | rfl | (split_ifs <;> rfl)

theorem isbn13_apply_description (g : Option GBItem) (x : Book) :
    (apply_description g x).isbn13 = x.isbn13 := by
  unfold apply_description; cases g <;> dsimp only [] <;> first | rfl | (split_ifs <;> rfl)

theorem isbn13_apply_thumbnail (g : Option GBItem) (x : Book) :
    (apply_thumbnail g x).isbn13 = x.isbn13 := by
  unfold apply_thumbnail; cases g <;> dsimp only [] <;> first | rfl | (split_ifs <;> rfl)

theorem isbn10_apply_tags_ol (d : List (String × OLEntry)) (x : Book) :
    (apply_tags_ol d x).isbn10 = x.isbn10 := by
  unfold apply_tags_ol; split_ifs <;> rfl

theorem isbn10_apply_tags_gb (g : Option GBItem) (x : Book) :
    (apply_tags_gb g x).isbn10 = x.isbn10 := by
  unfold apply_tags_gb; cases g <;> dsimp only [] <;> first | rfl | (split_ifs <;> rfl)

theorem isbn10_apply_date (g : Option GBItem) (x : Book) :
    (apply_date g x).isbn10 = x.isbn10 := by
  unfold apply_date; cases g <;> dsimp only [] <;> first | rfl | (split_ifs <;> rfl)

theorem isbn10_apply_description (g : Option GBItem) (x : Book) :
    (apply_description g x).isbn10 = x.isbn10 := by
  unfold apply_description; cases g <;> dsimp only [] <;> first | rfl | (split_ifs <;> rfl)

theorem isbn10_apply_thumbnail (g : Option GBItem) (x : Book) :
    (apply_thumbnail g x).isbn10 = x.isbn10 := by
  unfold apply_thumbnail; cases g <;> dsimp only [] <;> first | rfl | (split_ifs <;> rfl)

theorem title_apply_tags_ol (d : List (String × OLEntry)) (x : Book) :
    (apply_tags_ol d x).title = x.title := by
  unfold apply_tags_ol; split_ifs <;> rfl

theorem title_apply_tags_gb (g : Option GBItem) (x : Book) :
    (apply_tags_gb g x).title = x.title := by
  unfold apply_tags_gb; cases g <;> dsimp only [] <;> first | rfl | (split_ifs <;> rfl)

theorem title_apply_date (g : Option GBItem) (x : Book) :
    (apply_date g x).title = x.title := by
  unfold apply_date; cases g <;> dsimp only [] <;> first | rfl | (split_ifs <;> rfl)

theorem title_apply_description (g : Option GBItem) (x : Book) :
    (apply_description g x).title = x.title := by
  unfold apply_description; cases g <;> dsimp only [] <;> first | rfl | (split_ifs <;> rfl)

theorem title_apply_thumbnail (g : Option GBItem) (x : Book) :
    (apply_thumbnail g x).title = x.title := by
  unfold apply_thumbnail; cases g <;> dsimp only [] <;> first | rfl | (split_ifs <;> rfl)

theorem subtitle_apply_tags_ol (d : List (String × OLEntry)) (x : Book) :
    (apply_tags_ol d x).subtitle = x.subtitle := by
  unfold apply_tags_ol; split_ifs <;> rfl

theorem subtitle_apply_tags_gb (g : Option GBItem) (x : Book) :
    (apply_tags_gb g x).subtitle = x.subtitle := by
  unfold apply_tags_gb; cases g <;> dsimp only [] <;> first | rfl | (split_ifs <;> rfl)

theorem subtitle_apply_date (g : Option GBItem) (x : Book) :
    (apply_date g x).subtitle = x.subtitle := by
  unfold apply_date; cases g <;> dsimp only [] <;> first | rfl | (split_ifs <;> rfl)

theorem subtitle_apply_description (g : Option GBItem) (x : Book) :
    (apply_description g x).subtitle = x.subtitle := by
  unfold apply_description; cases g <;> dsimp only [] <;> first | rfl | (split_ifs <;> rfl)

theorem subtitle_apply_thumbnail (g : Option GBItem) (x : Book) :
    (apply_thumbnail g x).subtitle = x.subtitle := by
  unfold apply_thumbnail; cases g <;> dsimp only [] <;> first | rfl | (split_ifs <;> rfl)

theorem author_apply_tags_ol (d : List (String × OLEntry)) (x : Book) :
    (apply_tags_ol d x).author = x.author := by
  unfold apply_tags_ol; split_ifs <;> rfl

theorem author_apply_tags_gb (g : Option GBItem) (x : Book) :
    (apply_tags_gb g x).author = x.author := by
  unfold apply_tags_gb; cases g <;> dsimp only [] <;> first | rfl | (split_ifs <;> rfl)

theorem author_apply_date (g : Option GBItem) (x : Book) :
    (apply_date g x).author = x.author := by
  unfold apply_date; cases g <;> dsimp only [] <;> first | rfl | (split_ifs <;> rfl)

theorem author_apply_description (g : Option GBItem) (x : Book) :
    (apply_description g x).author = x.author := by
  unfold apply_description; cases g <;> dsimp only [] <;> first | rfl | (split_ifs <;> rfl)

theorem author_apply_thumbnail (g : Option GBItem) (x : Book) :
    (apply_thumbnail g x).author = x.author := by
  unfold apply_thumbnail; cases g <;> dsimp only [] <;> first | rfl | (split_ifs <;> rfl)

theorem url_apply_tags_ol (d : List (String × OLEntry)) (x : Book) :
    (apply_tags_ol d x).url = x.url := by
  unfold apply_tags_ol; split_ifs <;> rfl

theorem url_apply_tags_gb (g : Option GBItem) (x : Book) :
    (apply_tags_gb g x).url = x.url := by
  unfold apply_tags_gb; cases g <;> dsimp only [] <;> first | rfl | (split_ifs <;> rfl)

theorem url_apply_date (g : Option GBItem) (x : Book) :
    (apply_date g x).url = x.url := by
  unfold apply_date; cases g <;> dsimp only [] <;> first | rfl | (split_ifs <;> rfl)

theorem url_apply_description (g : Option GBItem) (x : Book) :
    (apply_description g x).url = x.url := by
  unfold apply_description; cases g <;> dsimp only [] <;> first | rfl | (split_ifs <;> rfl)

theorem url_apply_thumbnail (g : Option GBItem) (x : Book) :
    (apply_thumbnail g x).url = x.url := by
  unfold apply_thumbnail; cases g <;> dsimp only [] <;> first | rfl | (split_ifs <;> rfl)

theorem scanned_input_apply_tags_ol (d : List (String × OLEntry)) (x : Book) :
    (apply_tags_ol d x).scanned_input = x.scanned_input := by
  unfold apply_tags_ol; split_ifs <;> rfl

theorem scanned_input_apply_tags_gb (g : Option GBItem) (x : Book) :
    (apply_tags_gb g x).scanned_input = x.scanned_input := by
  unfold apply_tags_gb; cases g <;> dsimp only [] <;> first | rfl | (split_ifs <;> rfl)

theorem scanned_input_apply_date (g : Option GBItem) (x : Book) :
    (apply_date g x).scanned_input = x.scanned_input := by
  unfold apply_date; cases g <;> dsimp only [] <;> first | rfl | (split_ifs <;> rfl)

theorem scanned_input_apply_description (g : Option GBItem) (x : Book) :
    (apply_description g x).scanned_input = x.scanned_input := by
  unfold apply_description; cases g <;> dsimp only [] <;> first | rfl | (split_ifs <;> rfl)

theorem scanned_input_apply_thumbnail (g : Option GBItem) (x : Book) :
    (apply_thumbnail g x).scanned_input = x.scanned_input := by
  unfold apply_thumbnail; cases g <;> dsimp only [] <;> first | rfl | (split_ifs <;> rfl)

theorem pipe_isbn13 (d : List (String × OLEntry)) (g : Option GBItem) (b : Book) :
    (pipe d g b).isbn13 = b.isbn13 := by
  unfold pipe
  rw [isbn13_apply_thumbnail, isbn13_apply_description, isbn13_apply_date, isbn13_apply_tags_gb,
    isbn13_apply_tags_ol]

theorem pipe_isbn10 (d : List (String × OLEntry)) (g : Option GBItem) (b : Book) :
    (pipe d g b).isbn10 = b.isbn10 := by
  unfold pipe
  rw [isbn10_apply_thumbnail, isbn10_apply_description, isbn10_apply_date, isbn10_apply_tags_gb,
    isbn10_apply_tags_ol]

theorem pipe_title (d : List (String × OLEntry)) (g : Option GBItem) (b : Book) :
    (pipe d g b).title = b.title := by
  unfold pipe
  rw [title_apply_thumbnail, title_apply_description, title_apply_date, title_apply_tags_gb,
    title_apply_tags_ol]

theorem pipe_subtitle (d : List (String × OLEntry)) (g : Option GBItem) (b : Book) :
    (pipe d g b).subtitle = b.subtitle := by
  unfold pipe
  rw [subtitle_apply_thumbnail, subtitle_apply_description, subtitle_apply_date, subtitle_apply_tags_gb,
    subtitle_apply_tags_ol]

theorem pipe_author (d : List (String × OLEntry)) (g : Option GBItem) (b : Book) :
    (pipe d g b).author = b.author := by
  unfold pipe
  rw [author_apply_thumbnail, author_apply_description, author_apply_date, author_apply_tags_gb,
    author_apply_tags_ol]

theorem pipe_url (d : List (String × OLEntry)) (g : Option GBItem) (b : Book) :
    (pipe d g b).url = b.url := by
  unfold pipe
  rw [url_apply_thumbnail, url_apply_description, url_apply_date, url_apply_tags_gb,
    url_apply_tags_ol]

theorem pipe_scanned_input (d : List (String × OLEntry)) (g : Option GBItem) (b : Book) :
    (pipe d g b).scanned_input = b.scanned_input := by
  unfold pipe
  rw [scanned_input_apply_thumbnail, scanned_input_apply_description, scanned_input_apply_date, scanned_input_apply_tags_gb,
    scanned_input_apply_tags_ol]

theorem pipe_tags (d : List (String × OLEntry)) (g : Option GBItem) (b : Book) :
    (pipe d g b).tags = tagsGbVal g (tagsOlVal d b) := by
  unfold pipe
  rw [tags_apply_thumbnail, tags_apply_description, tags_apply_date, tags_apply_tags_gb,
    tags_apply_tags_ol]

theorem pipe_pd (d : List (String × OLEntry)) (g : Option GBItem) (b : Book) :
    (pipe d g b).publish_date = pdVal g b.publish_date := by
  unfold pipe
  rw [pd_apply_thumbnail, pd_apply_description, pd_apply_date, pd_apply_tags_gb,
    pd_apply_tags_ol]

theorem pipe_desc (d : List (String × OLEntry)) (g : Option GBItem) (b : Book) :
    (pipe d g b).description = descVal g b.description := by
  unfold pipe
  rw [desc_apply_thumbnail, desc_apply_description, desc_apply_date, desc_apply_tags_gb,
    desc_apply_tags_ol]

theorem pipe_thumb (d : List (String × OLEntry)) (g : Option GBItem) (b : Book) :
    (pipe d g b).thumbnail = thumbVal g b.thumbnail := by
  unfold pipe
  rw [thumb_apply_thumbnail, thumb_apply_description, thumb_apply_date, thumb_apply_tags_gb,
    thumb_apply_tags_ol]

theorem book_eq (a b : Book) (h1 : a.isbn13 = b.isbn13) (h2 : a.isbn10 = b.isbn10)
    (h3 : a.title = b.title) (h4 : a.subtitle = b.subtitle) (h5 : a.author = b.author)
    (h6 : a.publish_date = b.publish_date) (h7 : a.url = b.url)
    (h8 : a.scanned_input = b.scanned_input) (h9 : a.tags = b.tags)
    (h10 : a.description = b.description) (h11 : a.thumbnail = b.thumbnail) : a = b := by
  cases a; cases b; simp_all

theorem is_valid_date_ne_empty (s : String) (h : is_valid_date s = true) : s ≠ "" := by
  intro he
  subst he
  exact absurd h (by decide)

theorem tagsOlVal_of_ne (d : List (String × OLEntry)) (b : Book) (h : b.tags ≠ "") :
    tagsOlVal d b = b.tags := by
  unfold tagsOlVal; split_ifs <;> simp_all

theorem tagsGbVal_of_ne (g : Option GBItem) (t : String) (h : t ≠ "") : tagsGbVal g t = t := by
  unfold tagsGbVal; cases g <;> dsimp only [] <;> first | rfl | (split_ifs <;> simp_all)

theorem descVal_of_ne (g : Option GBItem) (s : String) (h : s ≠ "") : descVal g s = s := by
  unfold descVal; cases g <;> dsimp only [] <;> first | rfl | (split_ifs <;> simp_all)

theorem thumbVal_of_ne (g : Option GBItem) (t : String) (h : t ≠ "") : thumbVal g t = t := by
  unfold thumbVal; cases g <;> dsimp only [] <;> first | rfl | (split_ifs <;> simp_all)

theorem tagsOlVal_empty (d : List (String × OLEntry)) (b : Book) (h : tagsOlVal d b = "") :
    b.tags = "" := by
  unfold tagsOlVal at h; split_ifs at h <;> simp_all

theorem tagsGbVal_empty (g : Option GBItem) (t : String) (h : tagsGbVal g t = "") : t = "" := by
  unfold tagsGbVal at h
  cases g with
  | none => exact h
  | some item =>
    dsimp only [] at h
    split_ifs at h <;> simp_all

theorem descVal_empty (g : Option GBItem) (s : String) (h : descVal g s = "") : s = "" := by
  unfold descVal at h
  cases g with
  | none => exact h
  | some item =>
    dsimp only [] at h
    split_ifs at h <;> simp_all

theorem tagsOlVal_congr (d : List (String × OLEntry)) (b1 b2 : Book) (ht : b1.tags = b2.tags)
    (h13 : b1.isbn13 = b2.isbn13) (h10 : b1.isbn10 = b2.isbn10) :
    tagsOlVal d b1 = tagsOlVal d b2 := by
  unfold tagsOlVal; rw [ht, h13, h10]

theorem fetch_ol_chain_congr (o : Oracle) (b1 b2 : Book) (h13 : b1.isbn13 = b2.isbn13)
    (h10 : b1.isbn10 = b2.isbn10) : fetch_ol_chain o b1 = fetch_ol_chain o b2 := by
  unfold fetch_ol_chain; rw [h13, h10]

theorem fetch_gb_chain_congr (o : Oracle) (b1 b2 : Book) (h13 : b1.isbn13 = b2.isbn13)
    (h10 : b1.isbn10 = b2.isbn10) : fetch_gb_chain o b1 = fetch_gb_chain o b2 := by
  unfold fetch_gb_chain; rw [h13, h10]

theorem pdVal_of_valid (g : Option GBItem) (p : String) (h : is_valid_date p = true) :
    pdVal g p = p := by
  unfold pdVal; cases g <;> dsimp only [] <;> first | rfl | (split_ifs <;> simp_all)

theorem pdVal_change (g : Option GBItem) (p : String) :
    pdVal g p ≠ p → is_valid_date p = false ∧ is_valid_date (pdVal g p) = true := by
  unfold pdVal
  cases g with
  | none => intro h; exact absurd rfl h
  | some item =>
    dsimp only []
    split_ifs <;> intro h <;> simp_all

theorem pdVal_idem (g : Option GBItem) (p : String) : pdVal g (pdVal g p) = pdVal g p := by
  unfold pdVal
  cases g with
  | none => rfl
  | some item => dsimp only []; split_ifs <;> simp_all

theorem descVal_idem (g : Option GBItem) (s : String) : descVal g (descVal g s) = descVal g s := by
  unfold descVal
  cases g with
  | none => rfl
  | some item => dsimp only []; split_ifs <;> simp_all

theorem thumbVal_idem (g : Option GBItem) (t : String) :
    thumbVal g (thumbVal g t) = thumbVal g t := by
  unfold thumbVal
  cases g with
  | none => rfl
  | some item => dsimp only []; split_ifs <;> simp_all

theorem needsG_mono (d : List (String × OLEntry)) (g : Option GBItem) (b : Book) :
    (!is_valid_date (pipe d g b).publish_date || (pipe d g b).description == "") = true →
    (!is_valid_date b.publish_date || b.description == "") = true := by
  rw [pipe_pd, pipe_desc]
  intro h
  simp only [Bool.or_eq_true] at h ⊢
  rcases h with h | h
  · left
    by_cases hv : is_valid_date b.publish_date = true
    · rw [Classes.pdVal_of_valid _ _ hv] at h
      simp [hv] at h
    · simp only [Bool.not_eq_true] at hv
      simp [hv]
  · right
    simp only [beq_iff_eq] at h ⊢
    exact descVal_empty _ _ h

theorem gb_stable (o : Oracle) (d : List (String × OLEntry)) (g : Option GBItem) (b : Book)
    (hg : g = gbFetched o b) :
    gbFetched o (pipe d g b) = g ∨ gbFetched o (pipe d g b) = none := by
  by_cases hn : (!is_valid_date (pipe d g b).publish_date ||
      (pipe d g b).description == "") = true
  · left
    have e1 : gbFetched o (pipe d g b) = (fetch_gb_chain o (pipe d g b)).1 := by
      unfold gbFetched; rw [if_pos hn]
    have e2 : fetch_gb_chain o (pipe d g b) = fetch_gb_chain o b :=
      fetch_gb_chain_congr _ _ _ (pipe_isbn13 _ _ _) (pipe_isbn10 _ _ _)
    have e3 : gbFetched o b = (fetch_gb_chain o b).1 := by
      unfold gbFetched; rw [if_pos (needsG_mono _ _ _ hn)]
    rw [e1, e2, hg, e3]
  · right
    unfold gbFetched
    rw [if_neg hn]

theorem idem_tags (o : Oracle) (d : List (String × OLEntry)) (g : Option GBItem) (b : Book)
    (hd0 : d = olFetched o b) (hg0 : g = gbFetched o b) :
    tagsGbVal (gbFetched o (pipe d g b))
      (tagsOlVal (olFetched o (pipe d g b)) (pipe d g b)) = (pipe d g b).tags := by
  by_cases ht : (pipe d g b).tags = ""
  · have htag1 : tagsGbVal g (tagsOlVal d b) = "" := by
      rw [← pipe_tags]; exact ht
    have ht1 : tagsOlVal d b = "" := tagsGbVal_empty _ _ htag1
    have htb : b.tags = "" := tagsOlVal_empty _ _ ht1
    have hd : olFetched o (pipe d g b) = olFetched o b := by
      unfold olFetched
      rw [fetch_ol_chain_congr o (pipe d g b) b (pipe_isbn13 _ _ _) (pipe_isbn10 _ _ _), ht, htb]
    have hcong : tagsOlVal (olFetched o b) (pipe d g b) = tagsOlVal (olFetched o b) b :=
      tagsOlVal_congr _ _ _ (by rw [ht, htb]) (pipe_isbn13 _ _ _) (pipe_isbn10 _ _ _)
    rw [hd, hcong, ← hd0, ht1, ht]
    rcases gb_stable o d g b hg0 with hg | hg <;> rw [hg]
    · rw [ht1] at htag1; exact htag1
    · rfl
  · rw [tagsOlVal_of_ne _ _ ht, tagsGbVal_of_ne _ _ ht]

theorem update_book_info_idem (o : Oracle) (b : Book) :
    (update_book_info o (update_book_info o b).1).1 = (update_book_info o b).1 := by
  rw [update_book_info_eq o b]
  dsimp only []
  rw [update_book_info_eq o (pipe (olFetched o b) (gbFetched o b) b)]
  dsimp only []
  apply book_eq
  · exact pipe_isbn13 _ _ _
  · exact pipe_isbn10 _ _ _
  · exact pipe_title _ _ _
  · exact pipe_subtitle _ _ _
  · exact pipe_author _ _ _
  · rw [pipe_pd]
    rcases gb_stable o (olFetched o b) (gbFetched o b) b rfl with hg | hg <;> rw [hg]
    · rw [pipe_pd]
      exact pdVal_idem _ _
    · rfl
  · exact pipe_url _ _ _
  · exact pipe_scanned_input _ _ _
  · rw [pipe_tags]
    exact idem_tags o (olFetched o b) (gbFetched o b) b rfl rfl
  · rw [pipe_desc]
    rcases gb_stable o (olFetched o b) (gbFetched o b) b rfl with hg | hg <;> rw [hg]
    · rw [pipe_desc]
      exact descVal_idem _ _
    · rfl
  · rw [pipe_thumb]
    rcases gb_stable o (olFetched o b) (gbFetched o b) b rfl with hg | hg <;> rw [hg]
    · rw [pipe_thumb]
      exact thumbVal_idem _ _
    · rfl

theorem pipe_nil (b : Book) : pipe [] none b = b := by
  unfold pipe apply_thumbnail apply_description apply_date apply_tags_gb apply_tags_ol
  dsimp only []
  simp

end Classes

/-! Spec-side definitions: these transliterate the specification's words
(not the source) and exist only to be compared against the embedded
code. -/

/-- Splitting on whitespace runs as Python `str.split()` does; accumulator
holds the current token reversed. -/
def splitWsGo : List Char → List Char → List (List Char)
  | [], acc => if acc.isEmpty then [] else [acc.reverse]
  | c :: rest, acc =>
    if c.isWhitespace then
      (if acc.isEmpty then splitWsGo rest [] else acc.reverse :: splitWsGo rest [])
    else splitWsGo rest (c :: acc)

/-- Modelled from the spec (C1): `last_token_of` splits the author string
on whitespace and takes the final token, the empty string when there is
none. -/
def lastTokenSpec (s : String) : List Char :=
  ((splitWsGo s.data []).getLast?).getD []

/-- Modelled from the spec (C1): the collation key comparison the spec
describes, `(last_token_of(author) lower-cased, sortable_date)`. -/
def specC1KeyLe (a b : Scanner.Book) : Bool :=
  match strCmp ((lastTokenSpec a.author).map asciiLower) ((lastTokenSpec b.author).map asciiLower) with
  | Ordering.lt => true
  | Ordering.gt => false
  | Ordering.eq =>
    decide ((Scanner.sortable_date a.publish_date).key ≤ (Scanner.sortable_date b.publish_date).key)

/-- Modelled from the spec (C3): the check-character algorithm in the
spec's words: weighted sum of `digit[i] * (10 - i)` for `i` in 0..8,
`check = 11 - (sum mod 11)`, with 10 mapped to X and 11 mapped to 0. -/
def specWeightedTotal : List Nat → Nat → Nat
  | [], _ => 0
  | d :: ds, i => d * (10 - i) + specWeightedTotal ds (i + 1)

def specCheckStr (ds : List Nat) : String :=
  if 11 - specWeightedTotal ds 0 % 11 == 10 then "X"
  else if 11 - specWeightedTotal ds 0 % 11 == 11 then "0"
  else toString (11 - specWeightedTotal ds 0 % 11)

/-- Modelled from the spec (C7): the ISBN-10 shape, 10 characters, the
first 9 decimal digits, the last a digit or X/x. -/
def spec_isbn10_shape (s : String) : Bool :=
  s.length == 10 && (s.data.take 9).all Char.isDigit &&
    (match s.data.getLast? with
     | some c => c.isDigit || c == 'X' || c == 'x'
     | none => false)

theorem sumWeights_digits : ∀ (cs : List Char) (i acc : Nat),
    (∀ c ∈ cs, c.isDigit = true) →
    Scanner.sumWeights cs i acc = some (acc + specWeightedTotal (cs.map digitVal) i) := by
  intro cs
  induction cs with
  | nil => intro i acc h; simp [Scanner.sumWeights, specWeightedTotal]
  | cons c cs ih =>
    intro i acc h
    have hc : c.isDigit = true := h c (List.mem_cons_self _ _)
    simp only [Scanner.sumWeights, Scanner.pyIntChar, hc, if_pos]
    rw [ih (i + 1) _ (fun x hx => h x (List.mem_cons_of_mem _ hx))]
    simp only [List.map_cons, specWeightedTotal]
    congr 1
    omega

theorem str_data_empty (s : String) (h : s.data = []) : s = "" := by
  cases s with
  | mk l =>
    have hl : l = [] := h
    rw [hl]

theorem isbn13_to_isbn10_total (s : String)
    (h : ∀ c ∈ (s.data.drop 3).dropLast, c.isDigit = true) :
    ∃ t, Scanner.isbn13_to_isbn10 s = some t := by
  unfold Scanner.isbn13_to_isbn10
  split_ifs
  · exact ⟨"", rfl⟩
  · dsimp only []
    rw [sumWeights_digits _ 0 0 h]
    exact ⟨_, rfl⟩

theorem pyIsDigit_conv (s : String) (h : pyIsDigit s = true) :
    ∃ t, Scanner.isbn13_to_isbn10 s = some t := by
  apply isbn13_to_isbn10_total
  intro c hc
  unfold pyIsDigit at h
  rw [Bool.and_eq_true, List.all_eq_true] at h
  exact h.2 c (List.drop_subset 3 s.data (List.dropLast_subset _ hc))

/-! The claim theorems. -/

def c1exZoe : Scanner.Book :=
  { isbn13 := "9781000000001", title := "Book Z", author := "Zoe Adams" }

def c1exAlice : Scanner.Book :=
  { isbn13 := "9781000000002", title := "Book A", author := "Alice Brown" }

/-- C1 counterexample: the order `save_books` persists is NOT sorted by the
spec's last-token key.  With authors "Zoe Adams" and "Alice Brown" the code
orders Brown's record first (full string "alice brown" < "zoe adams"),
yet under the spec's key "brown" > "adams", so the persisted order violates
the claimed last-token ordering. -/
theorem c1_counterexample :
    Scanner.save_books [c1exZoe, c1exAlice] = [c1exAlice, c1exZoe] ∧
    specC1KeyLe c1exAlice c1exZoe = false ∧ specC1KeyLe c1exZoe c1exAlice = true := by
  decide

/-- C1 (amended): `save_books` persists the records sorted by the two-level
key (FULL author string lower-cased, then sortable date): the output is a
permutation of the catalog, pairwise ordered under that key, the key is
total and well-defined for every record, and a record with an empty author
string precedes every record with a non-empty author. -/
theorem c1_amended (books : List Scanner.Book) :
    (Scanner.save_books books).Perm books ∧
    List.Pairwise (fun a b => Scanner.keyLe a b = true) (Scanner.save_books books) ∧
    (∀ a b : Scanner.Book, a.author = "" → b.author ≠ "" → Scanner.keyLe a b = true) := by
  refine ⟨List.perm_insertionSort _ _, List.sorted_insertionSort _ _, ?_⟩
  intro a b ha hb
  unfold Scanner.keyLe
  have h1 : pyLower a.author = [] := by rw [ha]; rfl
  have h2 : pyLower b.author ≠ [] := by
    intro h
    apply hb
    unfold pyLower at h
    rw [List.map_eq_nil] at h
    exact str_data_empty _ h
  rw [h1]
  rcases hpy : pyLower b.author with - | ⟨c, cs⟩
  · exact absurd hpy h2
  · rfl

/-- C1 witness for the amended theorem at concrete records. -/
theorem c1_witness :
    Scanner.keyLe { isbn13 := "9781000000003", title := "T", author := "" } c1exZoe = true :=
  (c1_amended []).2.2 _ c1exZoe rfl (by decide)

/-- C3: for every 13-character "978"-prefixed string whose remaining
characters are decimal digits, `isbn13_to_isbn10` returns the nine core
digits followed by the check character of the spec's weighted-sum formula;
for strings failing the prefix/length guard it returns the empty string;
and the known pair 9780316066525 ↦ 0316066524 is reproduced. -/
theorem c3_isbn_conversion :
    (∀ s : String, s.length = 13 → Scanner.listStarts "978".data s.data = true →
      (∀ c ∈ s.data.drop 3, c.isDigit = true) →
      Scanner.isbn13_to_isbn10 s =
        some (String.mk ((s.data.drop 3).dropLast) ++
          specCheckStr (((s.data.drop 3).dropLast).map digitVal))) ∧
    (∀ s : String, ¬(Scanner.listStarts "978".data s.data = true ∧ s.length = 13) →
      Scanner.isbn13_to_isbn10 s = some "") ∧
    Scanner.isbn13_to_isbn10 "9780316066525" = some "0316066524" := by
  refine ⟨?_, ?_, by decide⟩
  · intro s hlen hstart hdig
    have hcond : (!Scanner.listStarts "978".data s.data || s.length != 13) = false := by
      rw [hstart, hlen]
      rfl
    unfold Scanner.isbn13_to_isbn10
    rw [hcond]
    rw [if_neg (by simp)]
    have hcore : ∀ c ∈ (s.data.drop 3).dropLast, c.isDigit = true :=
      fun c hc => hdig c (List.dropLast_subset _ hc)
    dsimp only []
    rw [sumWeights_digits _ 0 0 hcore]
    unfold specCheckStr
    rw [Nat.zero_add]
  · intro s h
    have hcond : (!Scanner.listStarts "978".data s.data || s.length != 13) = true := by
      by_cases hs : Scanner.listStarts "978".data s.data = true
      · by_cases hl : s.length = 13
        · exact absurd ⟨hs, hl⟩ h
        · simp [bne_iff_ne, hl]
      · rw [Bool.not_eq_true] at hs
        simp [hs]
    unfold Scanner.isbn13_to_isbn10
    rw [hcond, if_pos rfl]

/-- C3 witness: the conversion theorem applied at a concrete ISBN-13. -/
theorem c3_witness : Scanner.isbn13_to_isbn10 "9781234567897" = some "123456789X" := by
  have h := c3_isbn_conversion.1 "9781234567897" (by decide) (by decide) (by decide)
  rw [h]
  decide

/-- C5: the date normalizer of classes.py tries month-name, ISO,
bare-year, clamped-first-4-characters and the 1900-01-01 sentinel strictly
in that order with first success winning, and produces the claimed values
on the claimed example strings. -/
theorem c5_date_cascade :
    Classes.sortable_date "Jan 5, 2001" = ⟨2001, 1, 5⟩ ∧
    Classes.sortable_date "2001-01-05" = ⟨2001, 1, 5⟩ ∧
    Classes.sortable_date "2001" = ⟨2001, 1, 1⟩ ∧
    Classes.sortable_date "1850xyz" = ⟨1900, 1, 1⟩ ∧
    Classes.sortable_date "abcd" = ⟨1900, 1, 1⟩ ∧
    (∀ (s : String) (d : DateV), parseBdY s.data = some d → Classes.sortable_date s = d) ∧
    (∀ (s : String) (d : DateV), parseBdY s.data = none → parseISO s.data = some d →
      Classes.sortable_date s = d) ∧
    (∀ (s : String) (y : Int), parseBdY s.data = none → parseISO s.data = none →
      pyInt s = some y → 1 ≤ y → y ≤ 9999 → Classes.sortable_date s = ⟨y.toNat, 1, 1⟩) ∧
    (∀ s : String, parseBdY s.data = none → parseISO s.data = none →
      (pyInt s = none ∨ ∃ y, pyInt s = some y ∧ ¬(1 ≤ y ∧ y ≤ 9999)) →
      Classes.sortable_date s = yearFallback s) := by
  refine ⟨by decide, by decide, by decide, by decide, by decide, ?_, ?_, ?_, ?_⟩
  · intro s d h
    unfold Classes.sortable_date
    rw [h]
  · intro s d h1 h2
    unfold Classes.sortable_date
    rw [h1, h2]
  · intro s y h1 h2 h3 h4 h5
    unfold Classes.sortable_date
    rw [h1, h2, h3]
    dsimp only []
    rw [if_pos (by simp [h4, h5])]
  · intro s h1 h2 h3
    unfold Classes.sortable_date
    rw [h1, h2]
    rcases h3 with h3 | ⟨y, hy, hn⟩
    · rw [h3]
    · have hc : ¬((decide (1 ≤ y) && decide (y ≤ 9999)) = true) := by
        simp only [Bool.and_eq_true, decide_eq_true_eq]
        exact hn
      rw [hy]
      dsimp only []
      rw [if_neg hc]

/-- C5 witness: the month-name stage applied at a concrete date string. -/
theorem c5_witness : Classes.sortable_date "Mar 14, 1999" = ⟨1999, 3, 14⟩ :=
  c5_date_cascade.2.2.2.2.2.1 "Mar 14, 1999" ⟨1999, 3, 14⟩ (by decide)

/-- C6 counterexample: `isbn13_to_isbn10` is NOT total: on the 13-character
"978"-prefixed input "978abcdefghij" the uncaught ValueError from
`int(digit)` escapes (modelled by `none`). -/
theorem c6_counterexample : Scanner.isbn13_to_isbn10 "978abcdefghij" = none := by decide

/-- C6 (amended): `isbn13_to_isbn10` returns a string value on every input
whose characters in positions 3..11 are decimal digits — in particular on
every all-digit string and on every string rejected by the prefix/length
guard — but a non-digit in the core raises an uncaught exception. -/
theorem c6_amended (s : String)
    (h : ∀ c ∈ (s.data.drop 3).dropLast, c.isDigit = true) :
    (Scanner.isbn13_to_isbn10 s).isSome = true := by
  rcases isbn13_to_isbn10_total s h with ⟨t, ht⟩
  rw [ht]
  rfl

/-- C6 witness: the amended totality theorem at a concrete ISBN-13. -/
theorem c6_witness : (Scanner.isbn13_to_isbn10 "9780316066525").isSome = true :=
  c6_amended "9780316066525" (by decide)

theorem str_data_inj (s t : String) (h : s.data = t.data) : s = t := by
  cases s with
  | mk l =>
    cases t with
    | mk m =>
      have h2 : l = m := h
      rw [h2]

theorem gb10Stage_outcome (o : Scanner.Oracle) (books : List (String × Scanner.Book))
    (input isbn10 : String) (log : List Call) (r : Scanner.StepResult)
    (h : Scanner.gb10Stage o books input isbn10 log = some r) :
    r.outcome = Scanner.Outcome.addedGB10 ∨ r.outcome = Scanner.Outcome.notFound := by
  unfold Scanner.gb10Stage at h
  repeat' split at h
  all_goals first
    | (injection h with h2; subst h2; simp)
    | (cases h)

theorem gbStage_outcome (o : Scanner.Oracle) (books : List (String × Scanner.Book))
    (input isbn10 : String) (log : List Call) (r : Scanner.StepResult)
    (h : Scanner.gbStage o books input isbn10 log = some r) :
    r.outcome = Scanner.Outcome.addedGB13 ∨ r.outcome = Scanner.Outcome.addedGB10 ∨
      r.outcome = Scanner.Outcome.notFound := by
  unfold Scanner.gbStage at h
  split at h
  · split at h
    · cases h
    · injection h with h2; subst h2; simp
    · rcases gb10Stage_outcome _ _ _ _ _ _ h with h3 | h3 <;> simp [h3]
  · rcases gb10Stage_outcome _ _ _ _ _ _ h with h3 | h3 <;> simp [h3]

/-- C7 counterexample: the input "0316066524" matches the ISBN-10 shape the
claim says must pass the validation gate, yet one main-loop iteration
rejects it as an invalid ISBN-13 with zero collaborator calls — even under
an oracle that answers every query. -/
theorem c7_counterexample :
    spec_isbn10_shape "0316066524" = true ∧
    Scanner.mainStep
      { ol := fun isbn => [("ISBN:" ++ isbn, {})],
        gb := fun _ => some { items := some [{}] } } [] "0316066524" =
      some ⟨[], [], false, Scanner.Outcome.invalidIsbn⟩ := by
  constructor
  · decide
  · decide

/-- C7 (amended): the gate of `main` accepts exactly the all-decimal-digit
inputs of length 13.  Any other input causes no collaborator fetch, no
catalog change and no persist in that iteration; a 13-digit input always
proceeds past the gate (its outcome is never quit, rejection, title search
or silence). -/
theorem c7_amended (o : Scanner.Oracle) (books : List (String × Scanner.Book)) (input : String) :
    (¬(pyIsDigit input = true ∧ input.length = 13) →
      ∃ out, Scanner.mainStep o books input = some ⟨books, [], false, out⟩) ∧
    (pyIsDigit input = true → input.length = 13 →
      ∀ r, Scanner.mainStep o books input = some r →
        r.outcome ≠ Scanner.Outcome.quit ∧ r.outcome ≠ Scanner.Outcome.invalidIsbn ∧
        r.outcome ≠ Scanner.Outcome.titleSearch ∧ r.outcome ≠ Scanner.Outcome.ignored) := by
  constructor
  · intro h
    unfold Scanner.mainStep
    by_cases hq : (String.mk (pyLower input) == "q") = true
    · rw [if_pos hq]
      exact ⟨_, rfl⟩
    · rw [if_neg hq]
      by_cases hd : pyIsDigit input = true
      · rw [if_pos hd]
        have hl : input.length ≠ 13 := fun hl => h ⟨hd, hl⟩
        rw [if_pos (by simp [bne_iff_ne, hl])]
        exact ⟨_, rfl⟩
      · rw [if_neg hd]
        by_cases ha : input.data.any Char.isAlpha = true
        · rw [if_pos ha]
          exact ⟨_, rfl⟩
        · rw [if_neg ha]
          exact ⟨_, rfl⟩
  · intro hd hl r hr
    have hq := pyIsDigit_ne_q input hd
    unfold Scanner.mainStep at hr
    rw [hq] at hr
    rw [if_neg (by simp)] at hr
    rw [if_pos hd] at hr
    have hbne : (input.length != 13) = false := by rw [hl]; rfl
    rw [hbne, if_neg (by simp)] at hr
    by_cases hk : hasKey books input = true
    · rw [if_pos hk] at hr
      injection hr with h2
      subst h2
      exact ⟨by simp, by simp, by simp, by simp⟩
    · rw [if_neg hk] at hr
      rcases pyIsDigit_conv input hd with ⟨t, ht⟩
      rw [ht] at hr
      dsimp only [] at hr
      split at hr
      · injection hr with h2
        subst h2
        exact ⟨by simp, by simp, by simp, by simp⟩
      · split at hr
        · split at hr
          · injection hr with h2
            subst h2
            exact ⟨by simp, by simp, by simp, by simp⟩
          · rcases gbStage_outcome _ _ _ _ _ _ hr with h3 | h3 | h3 <;>
              exact ⟨by simp [h3], by simp [h3], by simp [h3], by simp [h3]⟩
        · rcases gbStage_outcome _ _ _ _ _ _ hr with h3 | h3 | h3 <;>
            exact ⟨by simp [h3], by simp [h3], by simp [h3], by simp [h3]⟩

def c7ex_oracle : Scanner.Oracle :=
  { ol := fun isbn => [("ISBN:" ++ isbn, {})],
    gb := fun _ => some { items := some [{}] } }

/-- C7 witness: the amended theorem applied at the non-ISBN input
"hello". -/
theorem c7_witness :
    ∃ out, Scanner.mainStep c7ex_oracle [] "hello" = some ⟨[], [], false, out⟩ :=
  (c7_amended c7ex_oracle [] "hello").1 (by decide)

def c4ex_oracle : Scanner.Oracle :=
  { ol := fun isbn =>
      if isbn == "9781234567897" then
        [("ISBN:9781234567897", { title := "A Title", authors := [{ name := "A Author" }] })]
      else []
    gb := fun _ => some { items := some [{ volumeInfo := { title := "B Title" } }] } }

/-- C4 counterexample: on the creation path the record shape is NOT
preferred from Source B.  With both sources able to answer, the created
record is Source A's extraction (title "A Title"), Source B is never
queried, and the record differs from Source B's extraction. -/
theorem c4_counterexample :
    Scanner.mainStep c4ex_oracle [] "9781234567897" =
      some ⟨[("9781234567897",
          { isbn13 := "9781234567897", title := "A Title", author := "A Author" })],
        [Call.ol "9781234567897"], true, Scanner.Outcome.addedOL13⟩ ∧
    ({ isbn13 := "9781234567897", title := "A Title", author := "A Author" } : Scanner.Book) ≠
      Scanner.Book.from_google_books "9781234567897"
        { volumeInfo := { title := "B Title" } } := by
  constructor
  · decide
  · decide

/-- C4 (amended): on the creation path the sources are tried Source A
(Open Library) first: whenever Source A's ISBN-13 lookup returns a payload
containing the key `ISBN:<input>`, the created record is exactly Source
A's extraction taken wholesale, Source B is never queried, and no per-field
or tag merging occurs (the scanner record has no tags field at all). -/
theorem c4_amended (o : Scanner.Oracle) (books : List (String × Scanner.Book)) (input : String)
    (hdig : pyIsDigit input = true) (hlen : input.length = 13)
    (hnew : hasKey books input = false)
    (hol : hasKey (o.ol input) ("ISBN:" ++ input) = true) :
    Scanner.mainStep o books input =
      some ⟨Scanner.upsert books input (Scanner.Book.from_api input (o.ol input)),
        [Call.ol input], true, Scanner.Outcome.addedOL13⟩ := by
  have hq := pyIsDigit_ne_q input hdig
  unfold Scanner.mainStep
  rw [hq, if_neg (by simp), if_pos hdig]
  have hbne : (input.length != 13) = false := by rw [hlen]; rfl
  rw [hbne, if_neg (by simp), hnew, if_neg (by simp)]
  rcases pyIsDigit_conv input hdig with ⟨t, ht⟩
  rw [ht]
  dsimp only []
  have hne : (o.ol input).isEmpty = false := by
    rcases hd2 : o.ol input with - | ⟨p, rest⟩
    · rw [hd2] at hol
      simp [hasKey] at hol
    · rfl
  rw [if_pos (by rw [hne, hol]; rfl)]

/-- C4 witness: the amended theorem at a concrete oracle and input. -/
theorem c4_witness :
    Scanner.mainStep c4ex_oracle [] "9781234567897" =
      some ⟨Scanner.upsert [] "9781234567897"
          (Scanner.Book.from_api "9781234567897" (c4ex_oracle.ol "9781234567897")),
        [Call.ol "9781234567897"], true, Scanner.Outcome.addedOL13⟩ :=
  c4_amended c4ex_oracle [] "9781234567897" (by decide) (by decide) (by decide) (by decide)

/-- C2: the enrichment pass is idempotent for every record and fixed
collaborator responses, and on a record with non-empty tags, a strictly
ISO-valid publish date and a non-empty description it issues zero
collaborator queries and changes nothing. -/
theorem c2_enrichment_idempotent (o : Classes.Oracle) (b : Classes.Book) :
    (Classes.update_book_info o (Classes.update_book_info o b).1).1 =
      (Classes.update_book_info o b).1 ∧
    (b.tags ≠ "" → is_valid_date b.publish_date = true → b.description ≠ "" →
      Classes.update_book_info o b = (b, [])) := by
  constructor
  · exact Classes.update_book_info_idem o b
  · intro ht hv hd
    rw [Classes.update_book_info_eq]
    have hol : Classes.olFetched o b = [] := by
      unfold Classes.olFetched
      rw [if_neg (by simp [ht])]
    have hgb : Classes.gbFetched o b = none := by
      unfold Classes.gbFetched
      rw [if_neg (by simp [hv, hd])]
    have hcalls : Classes.callsOf o b = [] := by
      unfold Classes.callsOf
      rw [if_neg (by simp [ht]), if_neg (by simp [hv, hd])]
      rfl
    rw [hol, hgb, hcalls, Classes.pipe_nil]

def c2ex_oracle : Classes.Oracle := ⟨fun _ => [], fun _ => none⟩

def c2ex_book : Classes.Book :=
  { isbn13 := "9780316066525", isbn10 := "0316066524", title := "The Road",
    tags := "Fiction", publish_date := "2006-09-26", description := "A novel." }

/-- C2 witness: the fully-present record is returned unchanged with zero
collaborator calls. -/
theorem c2_witness :
    Classes.update_book_info c2ex_oracle c2ex_book = (c2ex_book, []) :=
  (c2_enrichment_idempotent c2ex_oracle c2ex_book).2 (by decide) (by decide) (by decide)

/-- C8: the enrichment pass never changes isbn13, isbn10, title, subtitle,
author, url or scanned_input; tags, description and thumbnail change only
from empty to non-empty; publish_date changes only from a non-ISO-valid
value to an ISO-valid one and never empties a non-empty date. -/
theorem c8_frame (o : Classes.Oracle) (b : Classes.Book) :
    (Classes.update_book_info o b).1.isbn13 = b.isbn13 ∧
    (Classes.update_book_info o b).1.isbn10 = b.isbn10 ∧
    (Classes.update_book_info o b).1.title = b.title ∧
    (Classes.update_book_info o b).1.subtitle = b.subtitle ∧
    (Classes.update_book_info o b).1.author = b.author ∧
    (Classes.update_book_info o b).1.url = b.url ∧
    (Classes.update_book_info o b).1.scanned_input = b.scanned_input ∧
    ((Classes.update_book_info o b).1.tags ≠ b.tags →
      b.tags = "" ∧ (Classes.update_book_info o b).1.tags ≠ "") ∧
    ((Classes.update_book_info o b).1.description ≠ b.description →
      b.description = "" ∧ (Classes.update_book_info o b).1.description ≠ "") ∧
    ((Classes.update_book_info o b).1.thumbnail ≠ b.thumbnail →
      b.thumbnail = "" ∧ (Classes.update_book_info o b).1.thumbnail ≠ "") ∧
    ((Classes.update_book_info o b).1.publish_date ≠ b.publish_date →
      is_valid_date b.publish_date = false ∧
      is_valid_date (Classes.update_book_info o b).1.publish_date = true) ∧
    (b.publish_date ≠ "" → (Classes.update_book_info o b).1.publish_date ≠ "") := by
  rw [Classes.update_book_info_eq]
  dsimp only []
  refine ⟨Classes.pipe_isbn13 _ _ _, Classes.pipe_isbn10 _ _ _, Classes.pipe_title _ _ _,
    Classes.pipe_subtitle _ _ _, Classes.pipe_author _ _ _, Classes.pipe_url _ _ _,
    Classes.pipe_scanned_input _ _ _, ?_, ?_, ?_, ?_, ?_⟩
  · rw [Classes.pipe_tags]
    intro hne
    have hb : b.tags = "" := by
      by_contra hbne
      rw [Classes.tagsOlVal_of_ne _ _ hbne, Classes.tagsGbVal_of_ne _ _ hbne] at hne
      exact hne rfl
    refine ⟨hb, ?_⟩
    rw [hb] at hne
    exact hne
  · rw [Classes.pipe_desc]
    intro hne
    have hb : b.description = "" := by
      by_contra hbne
      rw [Classes.descVal_of_ne _ _ hbne] at hne
      exact hne rfl
    refine ⟨hb, ?_⟩
    rw [hb] at hne ⊢
    exact hne
  · rw [Classes.pipe_thumb]
    intro hne
    have hb : b.thumbnail = "" := by
      by_contra hbne
      rw [Classes.thumbVal_of_ne _ _ hbne] at hne
      exact hne rfl
    refine ⟨hb, ?_⟩
    rw [hb] at hne ⊢
    exact hne
  · rw [Classes.pipe_pd]
    exact Classes.pdVal_change _ _
  · rw [Classes.pipe_pd]
    intro h0
    by_cases he : Classes.pdVal (Classes.gbFetched o b) b.publish_date = b.publish_date
    · rw [he]
      exact h0
    · exact Classes.is_valid_date_ne_empty _ (Classes.pdVal_change _ _ he).2

def c8ex_vol : Classes.VolumeInfo :=
  { categories := ["Fiction"], publishedDate := "2001-01-05", description := "Desc",
    thumbnail := "img" }

def c8ex_oracle : Classes.Oracle :=
  { ol := fun _ => [],
    gb := fun isbn =>
      if isbn == "9780316066525" then some { volumeInfo := c8ex_vol } else none }

def c8ex_book : Classes.Book :=
  { isbn13 := "9780316066525", isbn10 := "", title := "T", publish_date := "2001" }

/-- C8 witness: the tags-monotonicity conjunct at a record whose tags are
filled by the pass. -/
theorem c8_witness :
    c8ex_book.tags = "" ∧ (Classes.update_book_info c8ex_oracle c8ex_book).1.tags ≠ "" :=
  (c8_frame c8ex_oracle c8ex_book).2.2.2.2.2.2.2.1 (by decide)

/-- C9: publish_date is replaced exactly when the stored value fails the
strict ISO check and the publishedDate of the Google Books payload the
fetch chain would return passes it, in which case the new value is that
publishedDate verbatim; in every other case the stored string is kept. -/
theorem c9_date_repair (o : Classes.Oracle) (b : Classes.Book) :
    (Classes.update_book_info o b).1.publish_date =
      (match (Classes.fetch_gb_chain o b).1 with
       | some item =>
         if !is_valid_date b.publish_date && is_valid_date item.volumeInfo.publishedDate then
           item.volumeInfo.publishedDate
         else b.publish_date
       | none => b.publish_date) := by
  rw [Classes.update_book_info_eq]
  dsimp only []
  rw [Classes.pipe_pd]
  rcases hch : (Classes.fetch_gb_chain o b).1 with - | item
  · have hg : Classes.gbFetched o b = none := by
      unfold Classes.gbFetched
      rw [hch]
      split_ifs <;> rfl
    rw [hg]
    rfl
  · by_cases hv : is_valid_date b.publish_date = true
    · rw [Classes.pdVal_of_valid _ _ hv]
      dsimp only []
      rw [hv]
      simp
    · have hvf : is_valid_date b.publish_date = false := by
        revert hv
        cases is_valid_date b.publish_date <;> simp
      have hg : Classes.gbFetched o b = some item := by
        unfold Classes.gbFetched
        rw [hvf, hch]
        rfl
      rw [hg]
      unfold Classes.pdVal
      dsimp only []
      rw [hvf]
      simp

/-- C10: with a non-empty isbn13, the Open Library subjects are looked up
only under the key `ISBN:<isbn13>`; when the payload was obtained through
the ISBN-10 fallback (and is keyed by the ISBN-10), no tags are extracted
by either cleaner.py or tags.py although the source returned non-empty
subject data. -/
theorem c10_tags_key (o : Classes.Oracle) (b : Classes.Book) (e : Classes.OLEntry)
    (h13 : b.isbn13 ≠ "") (hneq : b.isbn13 ≠ b.isbn10) (htags : b.tags = "")
    (hol13 : o.ol b.isbn13 = []) (hol10 : o.ol b.isbn10 = [("ISBN:" ++ b.isbn10, e)])
    (hsubs : e.subjects ≠ [])
    (hgb13 : o.gb b.isbn13 = none) (hgb10 : o.gb b.isbn10 = none) :
    (Classes.update_book_info o b).1.tags = "" ∧
    (Classes.update_book_tags o b).tags = "" := by
  have hkey : ("ISBN:" ++ b.isbn10) ≠ ("ISBN:" ++ b.isbn13) := by
    intro he
    apply hneq
    have hd := congrArg String.data he
    rw [String.data_append, String.data_append] at hd
    exact (str_data_inj _ _ (List.append_cancel_left hd)).symm
  have hfind : List.find? (fun p => p.1 == ("ISBN:" ++ b.isbn13))
      [(("ISBN:" ++ b.isbn10), e)] = none := by
    rw [List.find?_cons_of_neg _ (by simp only [beq_iff_eq]; exact hkey)]
    rfl
  have hchain : Classes.fetch_ol_chain o b
      = ([("ISBN:" ++ b.isbn10, e)], [Call.ol b.isbn13, Call.ol b.isbn10]) := by
    unfold Classes.fetch_ol_chain
    rw [hol13, hol10]
    rfl
  have hgchain : Classes.fetch_gb_chain o b = (none, [Call.gb b.isbn13, Call.gb b.isbn10]) := by
    unfold Classes.fetch_gb_chain
    rw [hgb13]
    dsimp only []
    rw [hgb10]
  have hgf : Classes.gbFetched o b = none := by
    unfold Classes.gbFetched
    rw [hgchain]
    split_ifs <;> rfl
  have hcond : (b.tags == "") = true := by rw [htags]; rfl
  have holf : Classes.olFetched o b = [("ISBN:" ++ b.isbn10, e)] := by
    unfold Classes.olFetched
    rw [if_pos hcond, hchain]
  have holtag : Classes.olTagStr [("ISBN:" ++ b.isbn10, e)] b.isbn13 b.isbn10 = "" := by
    unfold Classes.olTagStr dictGet
    dsimp only []
    rw [if_neg (by simp [h13]), hfind]
    rfl
  constructor
  · rw [Classes.update_book_info_eq]
    dsimp only []
    rw [Classes.pipe_tags, hgf, holf]
    unfold Classes.tagsGbVal Classes.tagsOlVal
    rw [holtag]
    simp [htags]
  · unfold Classes.update_book_tags
    rw [if_neg (by simp [htags])]
    dsimp only []
    rw [hchain]
    dsimp only []
    rw [if_neg (by simp)]
    unfold dictGet
    rw [hfind]
    simp [htags]

def c10ex_oracle : Classes.Oracle :=
  { ol := fun isbn =>
      if isbn == "0316066524" then
        [("ISBN:0316066524", { subjects := [{ name := some "Fantasy" }] })]
      else []
    gb := fun _ => none }

def c10ex_book : Classes.Book :=
  { isbn13 := "9780316066525", isbn10 := "0316066524", title := "T" }

/-- C10 witness: a record whose Open Library payload is keyed by its
ISBN-10 gets no tags from either pass. -/
theorem c10_witness :
    (Classes.update_book_info c10ex_oracle c10ex_book).1.tags = "" ∧
    (Classes.update_book_tags c10ex_oracle c10ex_book).tags = "" :=
  c10_tags_key c10ex_oracle c10ex_book { subjects := [{ name := some "Fantasy" }] }
    (by decide) (by decide) rfl (by decide) (by decide) (by decide) (by decide) (by decide)


end BookScanner
